import Mathlib

/-!
Verification of the retail-insights agent orchestration engine.

Shallow embedding of `src/lib/multi-agent-system.ts` (safety filter,
supervisor, RAG agent, SQL agent) and of `BigQueryService.sanitizeQuery`.
External effects (the Gemini model calls, the BigQuery HTTP backend, the
wall clock and `Math.random()`) are modelled as explicit port-outcome
inputs; everything the TypeScript computes from those inputs is translated
directly.
-/

namespace Retail

/-! ## Character and string helpers (JS string-method semantics) -/

/-- ASCII whitespace, the fragment of JavaScript `\s` relevant here. -/
def isWs (c : Char) : Bool :=
  c == ' ' || c == '\t' || c == '\n' || c == '\r' || c == '\x0b' || c == '\x0c'

/-- JavaScript regex word character (`\w`): alphanumeric or underscore. -/
def isWordChar (c : Char) : Bool :=
  c.isAlphanum || c == '_'

/-- `s` begins with pattern `p` (exact characters). -/
def startsWithL : List Char → List Char → Bool
  | _, [] => true
  | [], _ :: _ => false
  | c :: cs, p :: ps => c == p && startsWithL cs ps

/-- `s` begins with pattern `p`, case-insensitively. -/
def startsWithCI : List Char → List Char → Bool
  | _, [] => true
  | [], _ :: _ => false
  | c :: cs, p :: ps => (c.toLower == p.toLower) && startsWithCI cs ps

/-- `s` contains `p` as a contiguous substring (JS `String.includes`). -/
def containsL : List Char → List Char → Bool
  | [], p => p.isEmpty
  | c :: cs, p => startsWithL (c :: cs) p || containsL cs p

/-- Collapse every whitespace run to a single space (JS `replace(/\s+/g, ' ')`). -/
def collapseWs : List Char → List Char
  | [] => []
  | [c] => if isWs c then [' '] else [c]
  | c :: d :: cs =>
    if isWs c && isWs d then collapseWs (d :: cs)
    else (if isWs c then ' ' else c) :: collapseWs (d :: cs)

/-- Strip leading and trailing whitespace (JS `trim()`). -/
def trimL (s : List Char) : List Char :=
  ((s.dropWhile (isWs ·)).reverse.dropWhile (isWs ·)).reverse

/-- JS `split(sep)` for a one-character separator. -/
def splitOnChar (sep : Char) : List Char → List (List Char)
  | [] => [[]]
  | c :: cs =>
    let r := splitOnChar sep cs
    if c == sep then [] :: r
    else
      match r with
      | [] => [[c]]
      | h :: t => (c :: h) :: t

/-- JS `Array.join(sep)`. -/
def joinSep (sep : String) : List String → String
  | [] => ""
  | [x] => x
  | x :: xs => x ++ sep ++ joinSep sep xs

def trimS (s : String) : String := String.mk (trimL s.data)
def normWs (s : String) : String := String.mk (collapseWs s.data)
def upperS (s : String) : String := String.mk (s.data.map Char.toUpper)
def lowerS (s : String) : String := String.mk (s.data.map Char.toLower)
def containsS (s pat : String) : Bool := containsL s.data pat.data
def startsWithS (s pat : String) : Bool := startsWithL s.data pat.data

/-! ## Safety filter (`RetailSafetyFilter`) -/

/-- Verdict returned by `checkQuery` / `checkResponse`; `issues` is the
optional `issues?: string[]` field of the TypeScript return type. -/
structure SafetyVerdict where
  safe : Bool
  score : ℚ
  issues : Option (List String)
  deriving Repr, DecidableEq

/-- Outcome of the remote classifier behind `checkQuery`: the model call can
raise, return text that fails `JSON.parse`, or return a parsed object whose
`safe` / `score` / `issues` fields may each be absent. -/
inductive ClassifierOutcome where
  | err
  | unparsable
  | parsed (safe : Option Bool) (score : Option ℚ) (issues : Option (List String))
  deriving Repr, DecidableEq

/-- `RetailSafetyFilter.checkQuery`: `??` defaults on the parsed branch,
fail-open constants `0.8` (parse failure) and `0.7` (model error). -/
def checkQuery : ClassifierOutcome → SafetyVerdict
  | .err => ⟨true, 7/10, none⟩
  | .unparsable => ⟨true, 8/10, none⟩
  | .parsed s sc iss => ⟨s.getD true, sc.getD (9/10), some (iss.getD [])⟩

/-- Occurrence of `w1` + whitespace-run + `w2` at the head of `s`
(the regexes below use `\s+` between two literal words). -/
def twoWordsAt (s w1 w2 : List Char) : Bool :=
  startsWithCI s w1 &&
    (match s.drop w1.length with
     | [] => false
     | c :: cs => isWs c && startsWithCI ((c :: cs).dropWhile (isWs ·)) w2)

/-- `s` contains `w1` + `\s+` + `w2` somewhere, case-insensitively. -/
def containsTwoWordsCI : List Char → List Char → List Char → Bool
  | [], _, _ => false
  | c :: cs, w1, w2 => twoWordsAt (c :: cs) w1 w2 || containsTwoWordsCI cs w1 w2

/-- `s` contains the word `w`, case-insensitively. -/
def containsCI (s w : String) : Bool :=
  containsL (lowerS s).data (lowerS w).data

/-- The issue list accumulated by `checkResponse` over the fixed
`prohibitedPatterns`, in source order. -/
def checkResponseIssues (response : String) : List String :=
  (if containsTwoWordsCI response.data "DROP".data "TABLE".data then
    ["Potentially unsafe content detected: /DROP\\s+TABLE/i"] else []) ++
  (if containsTwoWordsCI response.data "DELETE".data "FROM".data then
    ["Potentially unsafe content detected: /DELETE\\s+FROM/i"] else []) ++
  (if containsCI response "password" then
    ["Potentially unsafe content detected: /password/i"] else []) ++
  (if containsCI response "confidential" then
    ["Potentially unsafe content detected: /confidential/i"] else [])

/-- `RetailSafetyFilter.checkResponse`: deterministic pattern matching
against the fixed prohibited patterns, score `0.95` when clean, otherwise
`max 0.1 (0.95 - issues.length * 0.2)`. -/
def checkResponse (response : String) : SafetyVerdict :=
  ⟨(checkResponseIssues response).isEmpty,
   if (checkResponseIssues response).isEmpty then 19/20
   else max (1/10) (19/20 - ((checkResponseIssues response).length : ℚ) * (1/5)),
   some (checkResponseIssues response)⟩

/-! ## SQL statement cleanup and validation (`SQLAgent.processQuery`, lines 656-676) -/

/-- Remove every occurrence of an opening code fence: JS
`replace(/\x60\x60\x60sql\s*\n?/gi, '')` — the marker plus the following
whitespace run (`\s*` greedily absorbs the optional newline as well). -/
def stripFenceOpenAux : ℕ → List Char → List Char
  | 0, s => s
  | _, [] => []
  | fuel + 1, c :: cs =>
    if startsWithCI (c :: cs) ("```sql".data) then
      stripFenceOpenAux fuel (((c :: cs).drop 6).dropWhile (isWs ·))
    else c :: stripFenceOpenAux fuel cs

/-- The fuel (the input length) dominates the number of scanning steps:
each step consumes at least one character, so the `0` fuel case is
unreachable and the function computes the JS global replacement. -/
def stripFenceOpen (s : List Char) : List Char :=
  stripFenceOpenAux s.length s

/-- Remove a closing code fence at the end: JS `replace(/\x60\x60\x60\s*$/g, '')`
— if the string ends with the marker followed only by whitespace, that
suffix is deleted. -/
def stripFenceClose (s : List Char) : List Char :=
  let r := s.reverse.dropWhile (isWs ·)
  if startsWithL r ("```".data) then (r.drop 3).reverse else s

/-- One trailing `;` plus trailing whitespace removed:
JS `replace(/;?\s*$/, '')`. -/
def stripTrailingSemi (s : List Char) : List Char :=
  let r := s.reverse.dropWhile (isWs ·)
  (match r with
   | ';' :: rest => rest
   | l => l).reverse

/-- Full cleanup chain applied to the captured `SQL_QUERY:` group:
trim, strip fences, collapse whitespace, trim, strip one trailing
semicolon. -/
def cleanSql (raw : String) : String :=
  let s1 := trimS raw
  let s2 := stripFenceClose (stripFenceOpen s1.data)
  let s3 := trimL (collapseWs s2)
  String.mk (stripTrailingSemi s3)

/-- The `SELECT`-prefix gate: the cleaned statement must satisfy
`sqlQuery.toUpperCase().startsWith('SELECT')`, otherwise `sqlQuery` is set
to `null` and execution is skipped. An extracted group that trims to the
empty string is identified with `null` (both are falsy and behave
identically downstream). -/
def validateSql (rawMatch : Option String) : Option String :=
  match rawMatch with
  | none => none
  | some m =>
    if (trimS m).data = [] then none
    else
      let q := cleanSql m
      if startsWithS (upperS q) "SELECT" then some q else none

/-! ## Simulated result generator (`SQLAgent.simulateQueryExecution`) -/

/-- A scalar cell of a simulated row (string, integer, or fractional). -/
inductive Cell where
  | s (v : String)
  | i (v : Int)
  | q (v : ℚ)
  deriving Repr, DecidableEq

structure FieldDesc where
  name : String
  type : String
  mode : String
  deriving Repr, DecidableEq

structure QueryResult where
  rows : List (List (String × Cell))
  schema : List FieldDesc
  totalRows : ℕ
  executionTime : ℕ
  deriving Repr, DecidableEq

/-- `SQLAgent.simulateQueryExecution`. `rnd` stands for the value
`Math.floor(Math.random() * 200) + 100` drawn for the fake execution time;
it reaches only the `executionTime` field. A `null` query yields the empty
result; otherwise the rows are keyed by keyword intent in the lowercased
statement. -/
def simulateQueryExecution (sqlQuery : Option String) (rnd : ℕ) : QueryResult :=
  match sqlQuery with
  | none => ⟨[], [], 0, 50⟩
  | some qy =>
    let lq := lowerS qy
    if containsS lq "sales" && (containsS lq "total" || containsS lq "sum") then
      { rows := [
          [("period", .s "Q1 2024"), ("total_sales", .i 2500000), ("growth_rate", .q (3/20)), ("transactions", .i 45000)],
          [("period", .s "Q2 2024"), ("total_sales", .i 2750000), ("growth_rate", .q (1/10)), ("transactions", .i 48000)],
          [("period", .s "Q3 2024"), ("total_sales", .i 3200000), ("growth_rate", .q (4/25)), ("transactions", .i 52000)],
          [("period", .s "Q4 2024"), ("total_sales", .i 3800000), ("growth_rate", .q (19/100)), ("transactions", .i 58000)]],
        schema := [⟨"period", "STRING", "NULLABLE"⟩, ⟨"total_sales", "FLOAT64", "NULLABLE"⟩,
          ⟨"growth_rate", "FLOAT64", "NULLABLE"⟩, ⟨"transactions", "INTEGER", "NULLABLE"⟩],
        totalRows := 4, executionTime := rnd }
    else if containsS lq "customer" then
      { rows := [
          [("segment", .s "VIP"), ("count", .i 1250), ("avg_value", .q (45075/100)), ("retention_rate", .q (89/100))],
          [("segment", .s "Regular"), ("count", .i 8900), ("avg_value", .q (1205/10)), ("retention_rate", .q (67/100))],
          [("segment", .s "New"), ("count", .i 2100), ("avg_value", .q (8525/100)), ("retention_rate", .q (34/100))]],
        schema := [⟨"segment", "STRING", "NULLABLE"⟩, ⟨"count", "INTEGER", "NULLABLE"⟩,
          ⟨"avg_value", "FLOAT64", "NULLABLE"⟩, ⟨"retention_rate", "FLOAT64", "NULLABLE"⟩],
        totalRows := 3, executionTime := rnd }
    else if containsS lq "product" || containsS lq "inventory" then
      { rows := [
          [("category", .s "Bags"), ("stock_level", .i 1200), ("reorder_point", .i 200), ("turnover_rate", .q (21/5)), ("avg_price", .q (8999/100))],
          [("category", .s "Shoes"), ("stock_level", .i 800), ("reorder_point", .i 150), ("turnover_rate", .q (19/5)), ("avg_price", .q (12999/100))],
          [("category", .s "Shirts"), ("stock_level", .i 1500), ("reorder_point", .i 300), ("turnover_rate", .q (51/10)), ("avg_price", .q (4999/100))],
          [("category", .s "Accessories"), ("stock_level", .i 950), ("reorder_point", .i 180), ("turnover_rate", .q (31/5)), ("avg_price", .q (2499/100))]],
        schema := [⟨"category", "STRING", "NULLABLE"⟩, ⟨"stock_level", "INTEGER", "NULLABLE"⟩,
          ⟨"reorder_point", "INTEGER", "NULLABLE"⟩, ⟨"turnover_rate", "FLOAT64", "NULLABLE"⟩,
          ⟨"avg_price", "FLOAT64", "NULLABLE"⟩],
        totalRows := 4, executionTime := rnd }
    else
      { rows := [
          [("metric", .s "Total Sales"), ("value", .s "$2.5M"), ("change", .s "+10%")],
          [("metric", .s "Customer Satisfaction"), ("value", .s "4.2/5"), ("change", .s "+0.1")],
          [("metric", .s "Inventory Turnover"), ("value", .s "4.5x"), ("change", .s "+0.3")],
          [("metric", .s "Average Order Value"), ("value", .s "$127.50"), ("change", .s "+5%")]],
        schema := [⟨"metric", "STRING", "NULLABLE"⟩, ⟨"value", "STRING", "NULLABLE"⟩,
          ⟨"change", "STRING", "NULLABLE"⟩],
        totalRows := 4, executionTime := rnd }

/-! ## Agent responses

`ToolCall.parameters`, `ToolCall.result` and `AgentResponse.reactSteps`
are omitted: no conversation-trace field and no claim reads them (the
supervisor copies only `toolName`, and the trace is built from the fields
kept here). The optional `metadata` of `AgentResponse` is flattened into
optional fields. -/

structure ToolCall where
  toolName : String
  status : String
  deriving Repr, DecidableEq

structure AgentResponse where
  agent : String
  message : String
  reasoning : String
  toolCalls : List ToolCall
  confidence : ℚ
  sources : Option (List String)
  sqlQuery : Option String
  shouldContinue : Bool
  safetyScore : ℚ
  usingRealData : Option Bool
  dataSource : Option String
  executionError : Option String
  resultSchema : Option (List FieldDesc)
  deriving Repr, DecidableEq

/-- Outcome of one Gemini `generateContent` call: it raises or returns text. -/
inductive ModelOutcome where
  | err
  | ok (text : String)
  deriving Repr, DecidableEq

/-! ## RAG agent (`RAGAgent.processQuery`) -/

/-- The static degraded answer of the RAG agent's `catch` branch. -/
def ragFallbackResponse : AgentResponse :=
  { agent := "RAG_AGENT"
    message := "I'm currently experiencing technical difficulties accessing the knowledge base, but I can provide general retail guidance based on industry standards."
    reasoning := "Fallback response due to retrieval system unavailability"
    toolCalls := [⟨"VectorDB_Retrieval", "error"⟩]
    confidence := 3/5
    sources := none
    sqlQuery := none
    shouldContinue := false
    safetyScore := 4/5
    usingRealData := none, dataSource := none, executionError := none, resultSchema := none }

def ragProcessQuery (model : ModelOutcome) : AgentResponse :=
  match model with
  | .err => ragFallbackResponse
  | .ok response =>
    let sc := checkResponse response
    { agent := "RAG_AGENT"
      message := if sc.safe then response
                 else "I found relevant information but need to review it for compliance."
      reasoning := "Retrieved information from retail knowledge base and applied industry best practices"
      toolCalls := [⟨"VectorDB_Retrieval", "success"⟩]
      confidence := min (17/20) sc.score
      sources := some ["Retail Best Practices Database", "Industry Guidelines",
        "Product Documentation", "Market Analysis Reports"]
      sqlQuery := none
      shouldContinue := false
      safetyScore := sc.score
      usingRealData := none, dataSource := none, executionError := none, resultSchema := none }

/-! ## SQL agent (`SQLAgent`) -/

/-- Outcome of `fetch('/api/bigquery/schema')`: the fetch can raise, or
deliver JSON whose `schema` field may be absent. -/
inductive SchemaFetch where
  | err
  | ok (schema : Option String)
  deriving Repr, DecidableEq

/-- `SQLAgent.getFallbackSchema`. The descriptive table text feeds only
the model prompt, which this embedding abstracts as a port outcome, so the
body is abbreviated to its header line. -/
def getFallbackSchema : String :=
  "RETAIL DATABASE SCHEMA (Mock Data): sales products customers inventory stores"

/-- `SQLAgent.loadSchema`: write-once cache; on a fetch error or an absent
(or empty, hence falsy) `schema` field the fallback text is cached.
Returns the schema together with the updated cache. -/
def loadSchema (cache : Option String) (f : SchemaFetch) : String × Option String :=
  match cache with
  | some s => (s, some s)
  | none =>
    let c :=
      match f with
      | .err => getFallbackSchema
      | .ok none => getFallbackSchema
      | .ok (some s) => if s = "" then getFallbackSchema else s
    (c, some c)

/-- Outcome of the SQL generation model call. On success the `SQL_QUERY:`
regex capture is abstracted as the already-extracted group `raw`
(`none` when the regex does not match), alongside the full response
text. -/
inductive SqlModelOutcome where
  | err
  | ok (raw : Option String) (text : String)
  deriving Repr, DecidableEq

/-- Outcome of `fetch('/api/bigquery/execute', …)` for a given statement:
success with a result, an unsuccessful API reply carrying an error string,
or a raised exception. -/
inductive BackendOutcome where
  | ok (result : QueryResult)
  | failed (error : String)
  | raised (msg : String)

/-- The static degraded answer of the SQL agent's outer `catch` branch. -/
def sqlFallbackResponse : AgentResponse :=
  { agent := "SQL_AGENT"
    message := "I'm currently unable to access the database, but I can provide general guidance on retail data analysis and KPI tracking."
    reasoning := "Fallback response due to SQL generation system unavailability"
    toolCalls := [⟨"SQL_Database", "error"⟩]
    confidence := 3/5
    sources := none
    sqlQuery := none
    shouldContinue := false
    safetyScore := 4/5
    usingRealData := none, dataSource := none, executionError := none, resultSchema := none }

/-- Result of one `SQLAgent.processQuery` call, with the updated schema
cache and two observations: whether the Data Backend Port was invoked and
the local `queryResults` variable. -/
structure SqlRunResult where
  response : AgentResponse
  newCache : Option String
  backendCalled : Bool
  queryResults : Option QueryResult

/-- Assemble the success-path `AgentResponse` of `SQLAgent.processQuery`
from the validated statement, the response text, the execution flags and
the obtained results. -/
def sqlAssemble (text : String) (sqlQuery : Option String) (usingRealData : Bool)
    (executionError : Option String) (queryResults : Option QueryResult) : AgentResponse :=
  let sc := checkResponse text
  { agent := "SQL_AGENT"
    message := if sc.safe then text
               else "I generated a data analysis but need to review it for security compliance."
    reasoning := if usingRealData then
        "Generated optimized BigQuery SQL and executed against real retail database"
      else "Generated SQL query and simulated results based on retail database schema"
    toolCalls := [⟨if usingRealData then "BigQuery_Database" else "SQL_Database_Simulator",
                   if executionError.isSome then "error" else "success"⟩]
    confidence := min (19/20) sc.score
    sqlQuery := sqlQuery
    sources := none
    shouldContinue := false
    safetyScore := sc.score
    usingRealData := some usingRealData
    dataSource := some (if usingRealData then "BigQuery" else "Simulated")
    executionError := executionError
    resultSchema := queryResults.map (·.schema) }

/-- `SQLAgent.processQuery`. `rnd` is the random fake execution time used
by the simulator. The function is total: every failure of the model call
or the backend is converted into a fallback or simulated answer. -/
def sqlProcessQuery (cache : Option String) (sf : SchemaFetch) (model : SqlModelOutcome)
    (backend : String → BackendOutcome) (rnd : ℕ) : SqlRunResult :=
  let cache' := (loadSchema cache sf).2
  match model with
  | .err => ⟨sqlFallbackResponse, cache', false, none⟩
  | .ok raw text =>
    match validateSql raw with
    | none =>
      let qr := simulateQueryExecution none rnd
      ⟨sqlAssemble text none false none (some qr), cache', false, some qr⟩
    | some s =>
      match backend s with
      | .ok res =>
        ⟨sqlAssemble text (some s) true none (some res), cache', true, some res⟩
      | .failed e =>
        let qr := simulateQueryExecution (some s) rnd
        ⟨sqlAssemble text (some s) false (some e) (some qr), cache', true, some qr⟩
      | .raised m =>
        let qr := simulateQueryExecution (some s) rnd
        ⟨sqlAssemble text (some s) false (some m) (some qr), cache', true, some qr⟩

/-! ## Conversation trace (`AgentMessage`) -/

inductive Role where
  | user | supervisor | rag_agent | sql_agent | system | safety
  deriving Repr, DecidableEq

/-- The optional `metadata` record of an `AgentMessage`, all fields
optional as in the TypeScript interface. -/
structure Metadata where
  agentType : Option String := none
  toolUsed : Option String := none
  reasoning : Option String := none
  sources : Option (List String) := none
  sqlQuery : Option String := none
  confidence : Option ℚ := none
  reactStep : Option String := none
  safetyScore : Option ℚ := none
  delegationPlan : Option (List String) := none
  deriving Repr, DecidableEq

structure AgentMessage where
  id : String
  role : Role
  content : String
  timestamp : ℕ
  metadata : Option Metadata := none
  deriving Repr, DecidableEq

/-! ## Supervisor (`SupervisorAgent`) -/

/-- Outcome of the ReAct classification model call: a raise
(`fallbackReActMessage` path), a reply without parsable JSON
(`fallbackReAct` substituted inside the success path), or parsed JSON
whose `confidence` and `delegationPlan` fields may be absent. -/
inductive ReactOutcome where
  | err
  | noJson
  | parsed (thought action observation reflection : String)
      (confidence : Option ℚ) (plan : Option (List String))

/-- JavaScript `x || d` for a possibly-absent number: absent or zero
(falsy) values fall back to the default. -/
def jsOrQ (v : Option ℚ) (d : ℚ) : ℚ :=
  match v with
  | none => d
  | some x => if x = 0 then d else x

/-- JavaScript `x || d` for a possibly-absent array: only absence falls
back (an empty array is truthy). -/
def jsOrPlan (v : Option (List String)) (d : List String) : List String :=
  match v with
  | none => d
  | some l => l

def sqlKeywords : List String :=
  ["sales", "revenue", "customer", "inventory", "metrics", "analytics"]

def ragKeywords : List String :=
  ["policy", "recommendation", "how to", "best practice", "guide"]

def hasSqlKeywords (q : String) : Bool :=
  sqlKeywords.any (fun k => containsS (lowerS q) k)

def hasRagKeywords (q : String) : Bool :=
  ragKeywords.any (fun k => containsS (lowerS q) k)

/-- `SupervisorAgent.getDelegationPlan`. -/
def getDelegationPlan : String → List String
  | "RAG_AGENT" => ["RAG_AGENT"]
  | "SQL_AGENT" => ["SQL_AGENT"]
  | "BOTH" => ["RAG_AGENT", "SQL_AGENT"]
  | _ => ["RAG_AGENT", "SQL_AGENT"]

structure ReactParsed where
  thought : String
  action : String
  observation : String
  reflection : String
  confidence : ℚ
  delegationPlan : List String
  deriving Repr, DecidableEq

/-- `SupervisorAgent.fallbackReAct`: the deterministic keyword classifier. -/
def fallbackReAct (q : String) : ReactParsed :=
  let hasSql := hasSqlKeywords q
  let hasRag := hasRagKeywords q
  let action := if hasSql && !hasRag then "SQL_AGENT"
                else if hasRag && !hasSql then "RAG_AGENT"
                else "BOTH"
  { thought := "Analyzing query type: " ++
      (if hasSql then "contains data keywords" else "") ++ " " ++
      (if hasRag then "contains knowledge keywords" else "")
    action := "delegate to " ++ action
    observation := action ++ " will provide the most relevant information"
    reflection := "I'll coordinate the response to give comprehensive insights"
    confidence := 3/4
    delegationPlan := getDelegationPlan action }

/-- `SupervisorAgent.performReAct` (including `fallbackReActMessage` for
the raise case); `t` is the `Date.now()` reading for this step. -/
def performReAct (q : String) (o : ReactOutcome) (t : ℕ) : AgentMessage :=
  match o with
  | .err =>
    let f := fallbackReAct q
    { id := toString (t + 1), role := .supervisor
      content := "THOUGHT: " ++ f.thought ++ "\n\nACTION: " ++ f.action ++
        "\n\nOBSERVATION: " ++ f.observation ++ "\n\nREFLECTION: " ++ f.reflection
      timestamp := t
      metadata := some { agentType := some "SUPERVISOR_REACT"
                         reasoning := some f.reflection
                         confidence := some f.confidence
                         reactStep := some "reflection"
                         delegationPlan := some f.delegationPlan } }
  | .noJson =>
    let f := fallbackReAct q
    { id := toString (t + 1), role := .supervisor
      content := "THOUGHT: " ++ f.thought ++ "\n\nACTION: I will " ++ f.action ++
        "\n\nOBSERVATION: " ++ f.observation ++ "\n\nREFLECTION: " ++ f.reflection
      timestamp := t
      metadata := some { agentType := some "SUPERVISOR_REACT"
                         reasoning := some f.reflection
                         confidence := some (jsOrQ (some f.confidence) (4/5))
                         reactStep := some "reflection"
                         delegationPlan := some (jsOrPlan (some f.delegationPlan)
                           (getDelegationPlan f.action)) } }
  | .parsed th ac ob rf conf plan =>
    { id := toString (t + 1), role := .supervisor
      content := "THOUGHT: " ++ th ++ "\n\nACTION: I will " ++ ac ++
        "\n\nOBSERVATION: " ++ ob ++ "\n\nREFLECTION: " ++ rf
      timestamp := t
      metadata := some { agentType := some "SUPERVISOR_REACT"
                         reasoning := some rf
                         confidence := some (jsOrQ conf (4/5))
                         reactStep := some "reflection"
                         delegationPlan := some (jsOrPlan plan (getDelegationPlan ac)) } }

/-- `SupervisorAgent.executeRAGAgent`: wrap the RAG response as a trace step. -/
def executeRAGAgentMsg (model : ModelOutcome) (t : ℕ) : AgentMessage :=
  let r := ragProcessQuery model
  { id := toString t ++ "_rag", role := .rag_agent, content := r.message, timestamp := t
    metadata := some { agentType := some "RAG_AGENT"
                       toolUsed := r.toolCalls.head?.map (·.toolName)
                       reasoning := some r.reasoning
                       sources := r.sources
                       confidence := some r.confidence
                       reactStep := some "action" } }

/-- `SupervisorAgent.executeSQLAgent`: wrap the SQL response as a trace step. -/
def executeSQLAgentMsg (r : AgentResponse) (t : ℕ) : AgentMessage :=
  { id := toString t ++ "_sql", role := .sql_agent, content := r.message, timestamp := t
    metadata := some { agentType := some "SQL_AGENT"
                       toolUsed := r.toolCalls.head?.map (·.toolName)
                       reasoning := some r.reasoning
                       sqlQuery := r.sqlQuery
                       confidence := some r.confidence
                       reactStep := some "action" } }

/-- `msg.metadata?.confidence || 0`, as used by the multi-agent average. -/
def jsConfOrZero (m : AgentMessage) : ℚ :=
  (m.metadata.bind (·.confidence)).getD 0

/-- `SupervisorAgent.synthesizeResponses`. With exactly one capability
step: lightweight wrap, no model call. Otherwise one synthesis model call
with concatenation fallback. (For an empty response list JavaScript's
`0/0` average is `NaN`; here rational division by zero yields `0` — no
claim depends on that corner.) -/
def synthesizeResponses (responses : List AgentMessage) (executionTime : ℕ)
    (synth : ModelOutcome) (t : ℕ) : AgentMessage :=
  match responses with
  | [single] =>
    let sc := checkResponse single.content
    { id := toString (t + 10), role := .supervisor
      content := if sc.safe then
          "Based on the analysis, here's what I found:\n\n" ++ single.content
        else "I've generated a response but it needs review for safety compliance."
      timestamp := t
      metadata := some { agentType := some "SUPERVISOR_SYNTHESIS"
                         reasoning := some "Single agent response synthesis"
                         confidence := some (min (jsOrQ (single.metadata.bind (·.confidence)) (4/5)) sc.score)
                         safetyScore := some sc.score
                         reactStep := some "observation" } }
  | rs =>
    match synth with
    | .ok text =>
      let sc := checkResponse text
      let avgConfidence : ℚ := (rs.map jsConfOrZero).sum / (rs.length : ℚ)
      { id := toString (t + 10), role := .supervisor
        content := if sc.safe then text
          else "I've analyzed multiple data sources but need to review the response for compliance."
        timestamp := t
        metadata := some { agentType := some "SUPERVISOR_SYNTHESIS"
                           reasoning := some ("Multi-agent synthesis completed in " ++
                             toString executionTime ++ "ms")
                           confidence := some (min avgConfidence sc.score)
                           safetyScore := some sc.score
                           reactStep := some "reflection" } }
    | .err =>
      { id := toString (t + 10), role := .supervisor
        content := "Based on analysis from our specialized agents:\n\n" ++
          joinSep "\n\nAdditionally:\n" (rs.map (·.content))
        timestamp := t
        metadata := some { agentType := some "SUPERVISOR_SYNTHESIS"
                           reasoning := some "Fallback synthesis due to processing error"
                           confidence := some (7/10)
                           safetyScore := some (4/5)
                           reactStep := some "observation" } }

/-- The `Date.now()` / `new Date()` readings consumed by one
`processQuery` call, one unconstrained slot per call site (a step's id and
timestamp readings, taken at the same instant, share a slot). -/
structure Clock where
  tSafety : ℕ
  tUser : ℕ
  tReact : ℕ
  tPlanStart : ℕ
  tRag : ℕ
  tSql : ℕ
  tSynthEnd : ℕ
  tSynth : ℕ
  deriving Repr, DecidableEq

/-- The external ports: classifier, three model calls, schema fetch and
data backend; fixing them fixes every port interaction of one call. -/
structure Ports where
  queryClassifier : ClassifierOutcome
  reactOutcome : ReactOutcome
  ragModel : ModelOutcome
  sqlSchemaFetch : SchemaFetch
  sqlModel : SqlModelOutcome
  backend : String → BackendOutcome
  synthModel : ModelOutcome

structure Env where
  ports : Ports
  clock : Clock
  rnd : ℕ

/-- The state a `SupervisorAgent` (with its embedded `SQLAgent`) retains
between `processQuery` calls: the `conversationHistory` field and the
SQL agent's `schemaCache` field. -/
structure SupState where
  history : List AgentMessage
  schemaCache : Option String

/-- Result of one `processQuery` call: the returned conversation list, the
updated instance state, and ghost observations of which collaborators were
invoked. -/
structure RunResult where
  trace : List AgentMessage
  state : SupState
  ragCalled : Bool
  sqlCalled : Bool
  backendCalled : Bool
  synthModelCalled : Bool

/-- `safetyCheck.issues?.join(', ')` — an absent list renders as the
string `undefined` inside the template literal. -/
def joinIssues : Option (List String) → String
  | none => "undefined"
  | some l => joinSep ", " l

/-- The outcome of `executeAgentPlan`: emitted steps, updated SQL schema
cache, and ghost observations. -/
structure PlanOut where
  messages : List AgentMessage
  newCache : Option String
  backendCalled : Bool
  synthModelCalled : Bool

/-- `SupervisorAgent.executeAgentPlan` (agents keyed by plan membership,
RAG first, then synthesis; the synthesis model call happens exactly when
the number of capability responses differs from one). -/
def executeAgentPlan (plan : List String) (p : Ports) (c : Clock) (rnd : ℕ)
    (cache : Option String) : PlanOut :=
  let ragMsgs := if plan.contains "RAG_AGENT" then [executeRAGAgentMsg p.ragModel c.tRag] else []
  let executionTime := c.tSynthEnd - c.tPlanStart
  if plan.contains "SQL_AGENT" then
    let r := sqlProcessQuery cache p.sqlSchemaFetch p.sqlModel p.backend rnd
    let responses := ragMsgs ++ [executeSQLAgentMsg r.response c.tSql]
    ⟨responses ++ [synthesizeResponses responses executionTime p.synthModel c.tSynth],
      r.newCache, r.backendCalled, responses.length != 1⟩
  else
    ⟨ragMsgs ++ [synthesizeResponses ragMsgs executionTime p.synthModel c.tSynth],
      cache, false, ragMsgs.length != 1⟩

/-- `SupervisorAgent.processQuery`: safety gate, user step, ReAct step,
delegation, synthesis. The per-call `conversation` list is built from
scratch; the instance `conversationHistory` only receives a `push` of the
user message on the safe path. -/
def processQuery (st : SupState) (e : Env) (q : String) : RunResult :=
  let v := checkQuery e.ports.queryClassifier
  if v.safe then
    let userMsg : AgentMessage :=
      { id := toString e.clock.tUser, role := .user, content := q, timestamp := e.clock.tUser }
    let reactMsg := performReAct q e.ports.reactOutcome e.clock.tReact
    match reactMsg.metadata.bind (·.delegationPlan) with
    | some plan =>
      let po := executeAgentPlan plan e.ports e.clock e.rnd st.schemaCache
      { trace := [userMsg, reactMsg] ++ po.messages
        state := { history := st.history ++ [userMsg], schemaCache := po.newCache }
        ragCalled := plan.contains "RAG_AGENT"
        sqlCalled := plan.contains "SQL_AGENT"
        backendCalled := po.backendCalled
        synthModelCalled := po.synthModelCalled }
    | none =>
      { trace := [userMsg, reactMsg]
        state := { history := st.history ++ [userMsg], schemaCache := st.schemaCache }
        ragCalled := false, sqlCalled := false, backendCalled := false
        synthModelCalled := false }
  else
    { trace := [{ id := toString e.clock.tSafety, role := .safety
                  content := "I cannot process this query due to safety concerns: " ++
                    joinIssues v.issues
                  timestamp := e.clock.tSafety
                  metadata := some { safetyScore := some v.score, confidence := some (9/10) } }]
      state := st
      ragCalled := false, sqlCalled := false, backendCalled := false
      synthModelCalled := false }

/-! ## Backend sanitizer (`BigQueryService.sanitizeQuery`) -/

/-- Truncate one line at the first `--` (the JS global multiline
replacement of `--.*$` by the empty string). -/
def cutLineComment : List Char → List Char
  | [] => []
  | '-' :: '-' :: _ => []
  | c :: cs => c :: cutLineComment cs

def removeLineComments (s : String) : String :=
  joinSep "\n" ((splitOnChar '\n' s.data).map (fun l => String.mk (cutLineComment l)))

/-- Scan past the first `*/`, returning the remainder, or `none`. -/
def dropToClose : List Char → Option (List Char)
  | [] => none
  | '*' :: '/' :: rest => some rest
  | _ :: cs => dropToClose cs

/-- Remove every lazily-matched block comment (the JS global replacement
of slash-star .. star-slash, lazy, by the empty string); an unclosed
opener does not match and is kept. Fuel-driven scan, one unit per
consumed character. -/
def removeBlockCommentsAux : ℕ → List Char → List Char
  | 0, s => s
  | _, [] => []
  | fuel + 1, '/' :: '*' :: cs =>
    (match dropToClose cs with
     | some rest => removeBlockCommentsAux fuel rest
     | none => '/' :: '*' :: cs)
  | fuel + 1, c :: cs => c :: removeBlockCommentsAux fuel cs

def removeBlockComments (s : List Char) : List Char :=
  removeBlockCommentsAux s.length s

/-- When the statement contains `;`, split on it and keep the first
non-empty part that starts with `SELECT`; otherwise leave it unchanged. -/
def firstSelectStatement (s : String) : String :=
  if containsS s ";" then
    let statements := ((splitOnChar ';' s.data).map (fun x => String.mk (trimL x))).filter
      (fun x => x.data.length != 0)
    match statements.find? (fun x => startsWithS (upperS x) "SELECT") with
    | some sel => sel
    | none => s
  else s

/-- The keyword disallow-list of the regex
`/\b(DROP|DELETE|TRUNCATE|ALTER|CREATE|INSERT|UPDATE)\s+/gi`. -/
def dangerousKw : List String :=
  ["DROP", "DELETE", "TRUNCATE", "ALTER", "CREATE", "INSERT", "UPDATE"]

/-- `kw` occurs at the head of `u` followed by a whitespace character
(the `\s+` the regex requires after the keyword); `u` is uppercased. -/
def kwWsAt (u kw : List Char) : Bool :=
  startsWithL u kw &&
    (match u.drop kw.length with
     | c :: _ => isWs c
     | [] => false)

/-- Scan for `\b` + `kw` + `\s`: the keyword must not be preceded by a
word character (`\b`) and must be followed by whitespace. -/
def hasKwWsAux (prevWord : Bool) : List Char → List Char → Bool
  | [], _ => false
  | c :: cs, kw => (!prevWord && kwWsAt (c :: cs) kw) || hasKwWsAux (isWordChar c) cs kw

def hasKwWs (u kw : List Char) : Bool := hasKwWsAux false u kw

/-- The second pattern, `/;\s*DROP\s+/gi`. -/
def hasSemiDrop : List Char → Bool
  | [] => false
  | c :: cs => (c == ';' && kwWsAt (cs.dropWhile (isWs ·)) ("DROP".data)) || hasSemiDrop cs

/-- The cleanup part of `sanitizeQuery`: trim, strip both comment forms,
normalize whitespace, reduce a multi-statement string to its first
`SELECT` part. -/
def sanitizeCore (query : String) : String :=
  firstSelectStatement (trimS (normWs
    (String.mk (removeBlockComments (removeLineComments (trimS query)).data))))

/-- The three `dangerousPatterns` tests of `sanitizeQuery`. -/
def sanitizeDanger (s : String) : Bool :=
  dangerousKw.any (fun k => hasKwWs (upperS s).data k.data) ||
  hasSemiDrop (upperS s).data ||
  containsL (upperS s).data ("INFORMATION_SCHEMA.".data)

/-- `BigQueryService.sanitizeQuery`: clean the statement, then throw
(`Except.error`) on a dangerous pattern or a non-`SELECT` head.
Statements that pass are returned for execution. -/
def sanitizeQuery (query : String) : Except String String :=
  if sanitizeDanger (sanitizeCore query) then
    .error "Query contains potentially dangerous operations"
  else if startsWithS (upperS (sanitizeCore query)) "SELECT" then
    .ok (sanitizeCore query)
  else
    .error ("Only SELECT queries are allowed. Received query starts with: \"" ++
      String.mk ((sanitizeCore query).data.take 50) ++ "...\"")

/-- The claim's hypothesis predicate, from the spec's words: one of the
seven keywords appears anywhere in the statement (case-insensitively). -/
def containsDangerKeyword (s : String) : Bool :=
  dangerousKw.any (fun k => containsL (upperS s).data k.data)

/-! ## Trace comparison up to volatile fields (for the determinism claim) -/

/-- Erase exactly the fields the claim allows to differ: `id` and
`timestamp`. -/
def scrubIdTime (m : AgentMessage) : AgentMessage :=
  { m with id := "", timestamp := 0 }

/-- Additionally erase the one metadata field computed from the wall
clock: the `reasoning` of the multi-agent synthesis step (its
`reactStep` is `reflection`; the single-capability synthesis step and the
concatenation fallback carry static reasoning strings). -/
def scrubMeta (md : Metadata) : Metadata :=
  if md.agentType == some "SUPERVISOR_SYNTHESIS" && md.reactStep == some "reflection" then
    { md with reasoning := none }
  else md

def scrub (m : AgentMessage) : AgentMessage :=
  { m with id := "", timestamp := 0, metadata := m.metadata.map scrubMeta }

/-! ## Derived notions and concrete fixtures used by the claims -/

/-- The delegation plan a ReAct step carries (the value stored in its
`metadata.delegationPlan`, clock-independent). -/
def reactPlan (q : String) (o : ReactOutcome) : List String :=
  match o with
  | .err => (fallbackReAct q).delegationPlan
  | .noJson => jsOrPlan (some (fallbackReAct q).delegationPlan)
      (getDelegationPlan (fallbackReAct q).action)
  | .parsed _ ac _ _ _ plan => jsOrPlan plan (getDelegationPlan ac)

/-- The user step a safe `processQuery` call pushes. -/
def userMsgOf (e : Env) (q : String) : AgentMessage :=
  { id := toString e.clock.tUser, role := .user, content := q, timestamp := e.clock.tUser }

def metaConfidence (m : AgentMessage) : Option ℚ :=
  m.metadata.bind (·.confidence)

def stEmpty : SupState := ⟨[], none⟩

def clockZero : Clock := ⟨0, 0, 0, 0, 0, 0, 0, 0⟩

/-- A clock whose delegated-phase end reading differs from `clockZero`
(elapsed 5ms instead of 0ms). -/
def clockFive : Clock := ⟨0, 0, 0, 0, 0, 0, 5, 0⟩

/-- Deterministic fake ports that flag the query unsafe. -/
def portsUnsafe : Ports :=
  { queryClassifier := .parsed (some false) (some (1/2)) (some ["privacy violation", "injection"])
    reactOutcome := .noJson
    ragModel := .err
    sqlSchemaFetch := .err
    sqlModel := .err
    backend := fun _ => .raised "offline"
    synthModel := .err }

def envUnsafe : Env := ⟨portsUnsafe, clockZero, 0⟩

/-- Deterministic fake ports that classify to the single `SQL_AGENT`
capability and answer every call. -/
def portsSqlOnly : Ports :=
  { queryClassifier := .err
    reactOutcome := .parsed "data question" "SQL_AGENT" "expect rows" "then report"
      (some (1/2)) (some ["SQL_AGENT"])
    ragModel := .ok "rag knowledge"
    sqlSchemaFetch := .err
    sqlModel := .ok (some "SELECT total sales FROM sales") "SQL_QUERY: SELECT total sales FROM sales"
    backend := fun _ => .failed "Query exceeded limit for bytes billed: cost_exceeded"
    synthModel := .ok "combined"
  }

def envSqlOnly : Env := ⟨portsSqlOnly, clockZero, 0⟩

/-- Deterministic fake ports that delegate to both capabilities (used to
compare two runs under different clocks). -/
def portsBoth : Ports :=
  { queryClassifier := .err
    reactOutcome := .parsed "broad question" "BOTH" "expect both" "merge"
      (some (1/2)) (some ["RAG_AGENT", "SQL_AGENT"])
    ragModel := .ok "rag knowledge"
    sqlSchemaFetch := .err
    sqlModel := .ok (some "SELECT total sales FROM sales") "SQL_QUERY: SELECT total sales FROM sales"
    backend := fun _ => .failed "offline"
    synthModel := .ok "combined answer"
  }

/-! ## Sanity evaluations of the embedded functions -/

example : (checkResponse "all good").safe = true := by decide
example : (checkResponse "the password is x").safe = false := by decide
example : (checkResponse "drop   table users").safe = false := by decide
example : (checkResponse "dropped tables").safe = true := by decide
example : checkQuery .err = ⟨true, 7/10, none⟩ := rfl

example : validateSql (some "DROP TABLE x") = none := by decide
example : validateSql (some "```sql\nSELECT 1;\n```") = some "SELECT 1" := by decide
example : validateSql (some "  select *  from  t ; ") = some "select * from t " := by decide
example : validateSql (some "   ") = none := by decide

example : sanitizeQuery "DROP TABLE x" = .error "Query contains potentially dangerous operations" := rfl
example : sanitizeQuery "SELECT 1; DROP TABLE x" = .ok "SELECT 1" := rfl
example : sanitizeQuery "SELECT a -- hi\nFROM t" = .ok "SELECT a FROM t" := rfl
example : sanitizeQuery "SELECT /* hi */ a" = .ok "SELECT a" := rfl
example : sanitizeQuery "select sale_id from INFORMATION_SCHEMA.tables" =
    .error "Query contains potentially dangerous operations" := rfl
example : sanitizeQuery "SELECT DROP" = .ok "SELECT DROP" := rfl


/-- Any non-null statement produces a non-empty simulated row set. -/
lemma simulateQueryExecution_rows_ne_nil (qy : String) (rnd : ℕ) :
    (simulateQueryExecution (some qy) rnd).rows ≠ [] := by
  unfold simulateQueryExecution
  dsimp only
  repeat' split
  all_goals simp

/-- The ReAct step always carries a delegation plan, and it is the
clock-independent `reactPlan`. -/
lemma performReAct_plan (q : String) (o : ReactOutcome) (t : ℕ) :
    (performReAct q o t).metadata.bind (·.delegationPlan) = some (reactPlan q o) := by
  cases o <;> rfl

/-- The response safety score is bounded below by `0.1`. -/
lemma checkResponse_score_pos (s : String) : 0 < (checkResponse s).score := by
  show 0 < (if (checkResponseIssues s).isEmpty then (19/20 : ℚ)
    else max (1/10) (19/20 - ((checkResponseIssues s).length : ℚ) * (1/5)))
  split
  · norm_num
  · exact lt_of_lt_of_le (by norm_num) (le_max_left _ _)

lemma jsOrQ_some_of_ne (c d : ℚ) (h : c ≠ 0) : jsOrQ (some c) d = c := by
  simp [jsOrQ, h]

/-- The RAG agent's confidence is always positive (either the fallback
`0.6` or `min 0.85 score` with a positive score). -/
lemma ragProcessQuery_confidence_pos (model : ModelOutcome) :
    0 < (ragProcessQuery model).confidence := by
  cases model with
  | err => norm_num [ragProcessQuery, ragFallbackResponse]
  | ok text =>
    have hpos := checkResponse_score_pos text
    simp only [ragProcessQuery]
    exact lt_min (by norm_num) hpos

/-- The SQL agent's confidence is always positive (either the fallback
`0.6` or `min 0.95 score` with a positive score). -/
lemma sqlProcessQuery_confidence_pos (cache : Option String) (sf : SchemaFetch)
    (model : SqlModelOutcome) (backend : String → BackendOutcome) (rnd : ℕ) :
    0 < (sqlProcessQuery cache sf model backend rnd).response.confidence := by
  cases model with
  | err => norm_num [sqlProcessQuery, sqlFallbackResponse]
  | ok raw text =>
    have hpos := checkResponse_score_pos text
    simp only [sqlProcessQuery]
    cases hv : validateSql raw with
    | none =>
      show 0 < min (19/20 : ℚ) (checkResponse text).score
      exact lt_min (by norm_num) hpos
    | some s =>
      dsimp only
      cases hb : backend s <;>
        · show 0 < min (19/20 : ℚ) (checkResponse text).score
          exact lt_min (by norm_num) hpos

/-! ## Claim theorems -/

/-- C8: if the remote classifier call fails or its output cannot be parsed
as JSON, `checkQuery` fails open, returning `safe = true` with the reduced
score `0.7` on a classifier error and `0.8` on unparsable output, instead
of raising or returning unsafe. -/
theorem claim8_checkQuery_fails_open :
    checkQuery .err = { safe := true, score := 7/10, issues := none } ∧
    checkQuery .unparsable = { safe := true, score := 8/10, issues := none } :=
  ⟨rfl, rfl⟩

/-- C5: the deterministic keyword fallback classifier delegates to exactly
the SQL capability when only structured-data keywords match, to exactly
the knowledge capability when only knowledge keywords match, and to both
capabilities when both or neither keyword set matches. -/
theorem claim5_fallback_keyword_plan (q : String) :
    (fallbackReAct q).delegationPlan =
      (if hasSqlKeywords q && !hasRagKeywords q then ["SQL_AGENT"]
       else if hasRagKeywords q && !hasSqlKeywords q then ["RAG_AGENT"]
       else ["RAG_AGENT", "SQL_AGENT"]) := by
  unfold fallbackReAct
  cases hs : hasSqlKeywords q <;> cases hr : hasRagKeywords q <;>
    simp [getDelegationPlan]

/-- C7: neither capability raises on a model-call failure: the RAG agent
and the SQL agent both return their static fallback message with reduced
confidence `0.6` and an error-status tool record (the embedded
`processQuery` functions are total, so no exception reaches the caller). -/
theorem claim7_model_failure_never_raises (cache : Option String) (sf : SchemaFetch)
    (backend : String → BackendOutcome) (rnd : ℕ) :
    ragProcessQuery .err = ragFallbackResponse ∧
    ragFallbackResponse.confidence = 3/5 ∧
    ragFallbackResponse.toolCalls = [{ toolName := "VectorDB_Retrieval", status := "error" }] ∧
    (sqlProcessQuery cache sf .err backend rnd).response = sqlFallbackResponse ∧
    sqlFallbackResponse.confidence = 3/5 ∧
    sqlFallbackResponse.toolCalls = [{ toolName := "SQL_Database", status := "error" }] :=
  ⟨rfl, rfl, rfl, rfl, rfl, rfl⟩

/-- C4, counterexample: `"SELECT DROP"` contains the keyword `DROP` yet
`sanitizeQuery` accepts it for execution — the disallow-list regex
requires the keyword to be followed by whitespace, so a keyword occurring
anywhere is not always rejected. -/
theorem claim4_counterexample :
    containsDangerKeyword "SELECT DROP" = true ∧
    sanitizeQuery "SELECT DROP" = .ok "SELECT DROP" :=
  ⟨by decide, rfl⟩

/-- C4, amended: every statement the backend sanitizer accepts for
execution starts with `SELECT` and contains no disallowed keyword *as a
word followed by whitespace* (after comment stripping and first-`SELECT`
reduction); keyword occurrences not followed by whitespace are not
rejected. -/
theorem claim4_amended_keyword_rejection (qy s : String) (h : sanitizeQuery qy = .ok s) :
    startsWithS (upperS s) "SELECT" = true ∧
    dangerousKw.any (fun k => hasKwWs (upperS s).data k.data) = false ∧
    hasSemiDrop (upperS s).data = false ∧
    containsL (upperS s).data ("INFORMATION_SCHEMA.".data) = false := by
  unfold sanitizeQuery at h
  split at h
  next hA => exact absurd h (by simp)
  next hA =>
    split at h
    next hB =>
      simp only [Except.ok.injEq] at h
      subst h
      unfold sanitizeDanger at hA
      simp only [Bool.or_eq_true, not_or, Bool.not_eq_true] at hA
      exact ⟨hB, hA.1.1, hA.1.2, hA.2⟩
    next hB => exact absurd h (by simp)

/-- C4, amended, witness evaluation at a passing statement. -/
theorem claim4_amended_witness :
    sanitizeQuery "SELECT sale_id FROM sales" = .ok "SELECT sale_id FROM sales" ∧
    startsWithS (upperS "SELECT sale_id FROM sales") "SELECT" = true ∧
    dangerousKw.any (fun k => hasKwWs (upperS "SELECT sale_id FROM sales").data k.data) = false :=
  ⟨rfl,
   (claim4_amended_keyword_rejection "SELECT sale_id FROM sales" "SELECT sale_id FROM sales" rfl).1,
   (claim4_amended_keyword_rejection "SELECT sale_id FROM sales" "SELECT sale_id FROM sales" rfl).2.1⟩

/-- C2: when the cleaned extracted statement does not begin with `SELECT`
(case-insensitively), the SQL agent sets `sqlQuery` to `null`, never
invokes the Data Backend Port, and only the simulated result generator
runs (with a null query). -/
theorem claim2_non_select_skips_backend (cache : Option String) (sf : SchemaFetch)
    (raw text : String) (backend : String → BackendOutcome) (rnd : ℕ)
    (h : startsWithS (upperS (cleanSql raw)) "SELECT" = false) :
    (sqlProcessQuery cache sf (.ok (some raw) text) backend rnd).response.sqlQuery = none ∧
    (sqlProcessQuery cache sf (.ok (some raw) text) backend rnd).backendCalled = false ∧
    (sqlProcessQuery cache sf (.ok (some raw) text) backend rnd).queryResults =
      some (simulateQueryExecution none rnd) ∧
    (sqlProcessQuery cache sf (.ok (some raw) text) backend rnd).response.usingRealData =
      some false ∧
    (sqlProcessQuery cache sf (.ok (some raw) text) backend rnd).response.toolCalls =
      [{ toolName := "SQL_Database_Simulator", status := "success" }] := by
  have hv : validateSql (some raw) = none := by
    simp only [validateSql]
    split
    · rfl
    · simp [h]
  refine ⟨?_, ?_, ?_, ?_, ?_⟩ <;> simp [sqlProcessQuery, hv, sqlAssemble]

/-- C2, witness: the spec's own example, a fake model emitting
`DROP TABLE x`. -/
theorem claim2_witness :
    startsWithS (upperS (cleanSql "DROP TABLE x")) "SELECT" = false ∧
    (sqlProcessQuery none .err (.ok (some "DROP TABLE x") "SQL_QUERY: DROP TABLE x")
      (fun _ => .raised "unreachable") 0).response.sqlQuery = none ∧
    (sqlProcessQuery none .err (.ok (some "DROP TABLE x") "SQL_QUERY: DROP TABLE x")
      (fun _ => .raised "unreachable") 0).backendCalled = false := by
  refine ⟨by decide, ?_, ?_⟩
  · exact (claim2_non_select_skips_backend none .err "DROP TABLE x" "SQL_QUERY: DROP TABLE x"
      (fun _ => .raised "unreachable") 0 (by decide)).1
  · exact (claim2_non_select_skips_backend none .err "DROP TABLE x" "SQL_QUERY: DROP TABLE x"
      (fun _ => .raised "unreachable") 0 (by decide)).2.1

/-- C3: when execution of a validated statement fails at the Data Backend
Port (cost-ceiling violations included), the SQL agent catches the error,
reports `usingRealData = false`, and substitutes the non-empty simulated
result — the failure never escapes as an exception (the embedding is a
total function). -/
theorem claim3_execution_failure_degrades (cache : Option String) (sf : SchemaFetch)
    (raw text s msg : String) (backend : String → BackendOutcome) (rnd : ℕ)
    (hv : validateSql (some raw) = some s)
    (hb : backend s = .failed msg ∨ backend s = .raised msg) :
    (sqlProcessQuery cache sf (.ok (some raw) text) backend rnd).response.usingRealData =
      some false ∧
    (sqlProcessQuery cache sf (.ok (some raw) text) backend rnd).queryResults =
      some (simulateQueryExecution (some s) rnd) ∧
    (simulateQueryExecution (some s) rnd).rows ≠ [] ∧
    (sqlProcessQuery cache sf (.ok (some raw) text) backend rnd).response.executionError =
      some msg ∧
    (sqlProcessQuery cache sf (.ok (some raw) text) backend rnd).response.toolCalls =
      [{ toolName := "SQL_Database_Simulator", status := "error" }] := by
  refine ⟨?_, ?_, simulateQueryExecution_rows_ne_nil s rnd, ?_, ?_⟩ <;>
    rcases hb with hb | hb <;> simp [sqlProcessQuery, hv, hb, sqlAssemble]

/-- The single-response synthesis confidence is the minimum of the
capability confidence and the output safety score (when the capability
confidence is present and non-zero, so the JS `|| 0.8` default is inert). -/
lemma synth_single_confidence (cap : AgentMessage) (et : ℕ) (sm : ModelOutcome) (t : ℕ)
    (c : ℚ) (hc : metaConfidence cap = some c) (hne : c ≠ 0) :
    metaConfidence (synthesizeResponses [cap] et sm t) =
      some (min c (checkResponse cap.content).score) := by
  have hb : cap.metadata.bind (·.confidence) = some c := hc
  simp [synthesizeResponses, metaConfidence, hb, jsOrQ_some_of_ne c _ hne]

/-- C6: for a safe query whose delegation plan selects exactly one
capability, the synthesis step is produced without a synthesis model call,
and its confidence equals `min (capability confidence) (checkResponse
score)` — the `0.8` default is immaterial because capability steps always
carry a (positive) confidence. -/
theorem claim6_single_capability_synthesis (st : SupState) (e : Env) (q : String)
    (hsafe : (checkQuery e.ports.queryClassifier).safe = true)
    (hone : (reactPlan q e.ports.reactOutcome).contains "RAG_AGENT" ≠
            (reactPlan q e.ports.reactOutcome).contains "SQL_AGENT") :
    (processQuery st e q).synthModelCalled = false ∧
    ∃ cap c,
      (processQuery st e q).trace =
        [userMsgOf e q, performReAct q e.ports.reactOutcome e.clock.tReact, cap,
         synthesizeResponses [cap] (e.clock.tSynthEnd - e.clock.tPlanStart)
           e.ports.synthModel e.clock.tSynth] ∧
      metaConfidence cap = some c ∧ c ≠ 0 ∧
      metaConfidence (synthesizeResponses [cap] (e.clock.tSynthEnd - e.clock.tPlanStart)
          e.ports.synthModel e.clock.tSynth) =
        some (min c (checkResponse cap.content).score) := by
  cases hR : (reactPlan q e.ports.reactOutcome).contains "RAG_AGENT" with
  | false =>
    cases hS : (reactPlan q e.ports.reactOutcome).contains "SQL_AGENT" with
    | false => exact absurd (hR.trans hS.symm) hone
    | true =>
      have hRm : "RAG_AGENT" ∉ reactPlan q e.ports.reactOutcome := by simpa using hR
      have hSm : "SQL_AGENT" ∈ reactPlan q e.ports.reactOutcome := by simpa using hS
      have hpos := sqlProcessQuery_confidence_pos st.schemaCache e.ports.sqlSchemaFetch
        e.ports.sqlModel e.ports.backend e.rnd
      refine ⟨?_,
        executeSQLAgentMsg (sqlProcessQuery st.schemaCache e.ports.sqlSchemaFetch
          e.ports.sqlModel e.ports.backend e.rnd).response e.clock.tSql,
        (sqlProcessQuery st.schemaCache e.ports.sqlSchemaFetch
          e.ports.sqlModel e.ports.backend e.rnd).response.confidence,
        ?_, rfl, hpos.ne', ?_⟩
      · simp [processQuery, hsafe, performReAct_plan, executeAgentPlan, hRm, hSm]
      · simp [processQuery, hsafe, performReAct_plan, executeAgentPlan, hRm, hSm, userMsgOf]
      · exact synth_single_confidence _ _ _ _ _ rfl hpos.ne'
  | true =>
    cases hS : (reactPlan q e.ports.reactOutcome).contains "SQL_AGENT" with
    | true => exact absurd (hR.trans hS.symm) hone
    | false =>
      have hRm : "RAG_AGENT" ∈ reactPlan q e.ports.reactOutcome := by simpa using hR
      have hSm : "SQL_AGENT" ∉ reactPlan q e.ports.reactOutcome := by simpa using hS
      have hpos := ragProcessQuery_confidence_pos e.ports.ragModel
      refine ⟨?_,
        executeRAGAgentMsg e.ports.ragModel e.clock.tRag,
        (ragProcessQuery e.ports.ragModel).confidence,
        ?_, rfl, hpos.ne', ?_⟩
      · simp [processQuery, hsafe, performReAct_plan, executeAgentPlan, hRm, hSm]
      · simp [processQuery, hsafe, performReAct_plan, executeAgentPlan, hRm, hSm, userMsgOf]
      · exact synth_single_confidence _ _ _ _ _ rfl hpos.ne'

/-- C6, witness: a plan that selects only the SQL capability. -/
theorem claim6_witness :
    (checkQuery envSqlOnly.ports.queryClassifier).safe = true ∧
    ((reactPlan "total sales last quarter" envSqlOnly.ports.reactOutcome).contains "RAG_AGENT" ≠
     (reactPlan "total sales last quarter" envSqlOnly.ports.reactOutcome).contains "SQL_AGENT") ∧
    (processQuery stEmpty envSqlOnly "total sales last quarter").synthModelCalled = false :=
  ⟨by decide, by decide,
   (claim6_single_capability_synthesis stEmpty envSqlOnly "total sales last quarter"
     (by decide) (by decide)).1⟩

/-- C10, counterexample: the supervisor *does* retain mutable state beyond
the schema cache — after one safe call the instance `conversationHistory`
has grown by the user message, contradicting the claim that no other
component keeps state across `processQuery` invocations. -/
theorem claim10_counterexample :
    (processQuery stEmpty envSqlOnly "hello").state.history ≠ [] ∧
    (processQuery stEmpty envSqlOnly "hello").state.history = [userMsgOf envSqlOnly "hello"] := by
  have h : (processQuery stEmpty envSqlOnly "hello").state.history =
      [userMsgOf envSqlOnly "hello"] := rfl
  exact ⟨by simp [h], h⟩

/-- C10, amended: besides the schema cache the supervisor retains the
`conversationHistory` list, appended with the user message of each safe
call; but the history is write-only: the returned trace, which is built
from scratch per call, is independent of it. -/
theorem claim10_amended_history_writeonly (h1 h2 : List AgentMessage) (c : Option String)
    (e : Env) (q : String) :
    (processQuery ⟨h1, c⟩ e q).trace = (processQuery ⟨h2, c⟩ e q).trace ∧
    ((processQuery ⟨h1, c⟩ e q).state.history = h1 ∨
     (processQuery ⟨h1, c⟩ e q).state.history = h1 ++ [userMsgOf e q]) := by
  cases hsafe : (checkQuery e.ports.queryClassifier).safe
  · exact ⟨by simp [processQuery, hsafe], Or.inl (by simp [processQuery, hsafe])⟩
  · constructor
    · simp [processQuery, hsafe, performReAct_plan]
    · right
      simp [processQuery, hsafe, performReAct_plan, userMsgOf]

/-- The simulated schema does not depend on the random execution time. -/
lemma sim_schema_rnd0 (qy : Option String) (rnd : ℕ) :
    (simulateQueryExecution qy rnd).schema = (simulateQueryExecution qy 0).schema := by
  cases qy with
  | none => rfl
  | some s =>
    unfold simulateQueryExecution
    dsimp only
    repeat' split
    all_goals rfl

/-- The SQL agent's `AgentResponse` does not depend on the schema cache,
the schema fetch outcome, or the random execution time (they reach only
the cache state and the result's `executionTime`). -/
lemma sqlProcessQuery_response_const (cache : Option String) (sf : SchemaFetch)
    (model : SqlModelOutcome) (backend : String → BackendOutcome) (rnd : ℕ) :
    (sqlProcessQuery cache sf model backend rnd).response =
    (sqlProcessQuery none .err model backend 0).response := by
  cases model with
  | err => rfl
  | ok raw text =>
    simp only [sqlProcessQuery]
    cases hv : validateSql raw with
    | none => rfl
    | some s =>
      dsimp only
      cases hb : backend s with
      | ok res => rfl
      | failed e => simp [sqlAssemble, sim_schema_rnd0]
      | raised m => simp [sqlAssemble, sim_schema_rnd0]

lemma performReAct_role (q : String) (o : ReactOutcome) (t : ℕ) :
    (performReAct q o t).role = .supervisor := by
  cases o <;> rfl

lemma performReAct_content_const (q : String) (o : ReactOutcome) (t : ℕ) :
    (performReAct q o t).content = (performReAct q o 0).content := by
  cases o <;> rfl

lemma performReAct_metadata_const (q : String) (o : ReactOutcome) (t : ℕ) :
    (performReAct q o t).metadata = (performReAct q o 0).metadata := by
  cases o <;> rfl

/-- Master determinism lemma: after erasing the volatile fields (`id`,
`timestamp`, and the wall-clock-derived reasoning of the multi-agent
synthesis step) the trace of `processQuery` is a function of the ports and
the query alone — the clock, randomness, history and cache do not show. -/
lemma scrub_trace_canonical (p : Ports) (c : Clock) (r : ℕ) (st : SupState) (q : String) :
    (processQuery st ⟨p, c, r⟩ q).trace.map scrub =
    (processQuery stEmpty ⟨p, clockZero, 0⟩ q).trace.map scrub := by
  cases hsafe : (checkQuery p.queryClassifier).safe
  · simp [processQuery, hsafe, scrub, scrubMeta, stEmpty, clockZero]
  · cases hR : (reactPlan q p.reactOutcome).contains "RAG_AGENT" <;>
      cases hS : (reactPlan q p.reactOutcome).contains "SQL_AGENT"
    · have hRm : "RAG_AGENT" ∉ reactPlan q p.reactOutcome := by simpa using hR
      have hSm : "SQL_AGENT" ∉ reactPlan q p.reactOutcome := by simpa using hS
      cases hsyn : p.synthModel <;>
        simp [processQuery, hsafe, performReAct_plan, executeAgentPlan, hRm, hSm, hsyn,
          performReAct_role, performReAct_content_const, performReAct_metadata_const,
          sqlProcessQuery_response_const, synthesizeResponses, scrub, scrubMeta,
          executeRAGAgentMsg, executeSQLAgentMsg, jsConfOrZero, stEmpty, clockZero]
    · have hRm : "RAG_AGENT" ∉ reactPlan q p.reactOutcome := by simpa using hR
      have hSm : "SQL_AGENT" ∈ reactPlan q p.reactOutcome := by simpa using hS
      simp [processQuery, hsafe, performReAct_plan, executeAgentPlan, hRm, hSm,
        performReAct_role, performReAct_content_const, performReAct_metadata_const,
        sqlProcessQuery_response_const, synthesizeResponses, scrub, scrubMeta,
        executeRAGAgentMsg, executeSQLAgentMsg, jsConfOrZero, stEmpty, clockZero]
    · have hRm : "RAG_AGENT" ∈ reactPlan q p.reactOutcome := by simpa using hR
      have hSm : "SQL_AGENT" ∉ reactPlan q p.reactOutcome := by simpa using hS
      simp [processQuery, hsafe, performReAct_plan, executeAgentPlan, hRm, hSm,
        performReAct_role, performReAct_content_const, performReAct_metadata_const,
        sqlProcessQuery_response_const, synthesizeResponses, scrub, scrubMeta,
        executeRAGAgentMsg, executeSQLAgentMsg, jsConfOrZero, stEmpty, clockZero]
    · have hRm : "RAG_AGENT" ∈ reactPlan q p.reactOutcome := by simpa using hR
      have hSm : "SQL_AGENT" ∈ reactPlan q p.reactOutcome := by simpa using hS
      cases hsyn : p.synthModel <;>
        simp [processQuery, hsafe, performReAct_plan, executeAgentPlan, hRm, hSm, hsyn,
          performReAct_role, performReAct_content_const, performReAct_metadata_const,
          sqlProcessQuery_response_const, synthesizeResponses, scrub, scrubMeta,
          executeRAGAgentMsg, executeSQLAgentMsg, jsConfOrZero, stEmpty, clockZero]

/-- C9, counterexample: two runs over identical deterministic ports but
different wall clocks produce traces that differ beyond `id` and
`timestamp` — the multi-agent synthesis step's `metadata.reasoning` embeds
the measured elapsed milliseconds. -/
theorem claim9_counterexample :
    (processQuery stEmpty ⟨portsBoth, clockZero, 0⟩ "overview of sales").trace.map scrubIdTime ≠
    (processQuery stEmpty ⟨portsBoth, clockFive, 0⟩ "overview of sales").trace.map scrubIdTime := by
  intro h
  have h2 := congrArg (List.map (fun m : AgentMessage => m.metadata.map (·.reasoning))) h
  exact absurd h2 (by decide)

/-- C9, amended: re-running `processQuery` with identical deterministic
ports yields a trace with the identical role sequence and identical
content and metadata, except for `id`, `timestamp`, and the multi-agent
synthesis step's `metadata.reasoning`, which embeds the wall-clock elapsed
time of the delegated phase. -/
theorem claim9_amended_deterministic_modulo_volatile (p : Ports) (c1 c2 : Clock)
    (r1 r2 : ℕ) (st : SupState) (q : String) :
    (processQuery (processQuery st ⟨p, c1, r1⟩ q).state ⟨p, c2, r2⟩ q).trace.map scrub =
      (processQuery st ⟨p, c1, r1⟩ q).trace.map scrub ∧
    (processQuery (processQuery st ⟨p, c1, r1⟩ q).state ⟨p, c2, r2⟩ q).trace.map (·.role) =
      (processQuery st ⟨p, c1, r1⟩ q).trace.map (·.role) := by
  have h1 := (scrub_trace_canonical p c2 r2 (processQuery st ⟨p, c1, r1⟩ q).state q).trans
    (scrub_trace_canonical p c1 r1 st q).symm
  have hrole : ∀ t : List AgentMessage, t.map (·.role) = (t.map scrub).map (·.role) := by
    intro t
    rw [List.map_map]
    rfl
  refine ⟨h1, ?_⟩
  rw [hrole, hrole ((processQuery st ⟨p, c1, r1⟩ q).trace), h1]

/-- C1: a query flagged unsafe by `checkQuery` terminates `processQuery`
immediately: the returned trace is exactly one `safety` step whose content
joins the verdict's issues and whose metadata carries the verdict score
(and confidence `0.9`), and neither the RAG nor the SQL capability is
invoked. -/
theorem claim1_unsafe_terminal (st : SupState) (e : Env) (q : String)
    (h : (checkQuery e.ports.queryClassifier).safe = false) :
    processQuery st e q =
      { trace := [{ id := toString e.clock.tSafety, role := .safety
                    content := "I cannot process this query due to safety concerns: " ++
                      joinIssues (checkQuery e.ports.queryClassifier).issues
                    timestamp := e.clock.tSafety
                    metadata := some { safetyScore := some (checkQuery e.ports.queryClassifier).score
                                       confidence := some (9/10) } }]
        state := st
        ragCalled := false, sqlCalled := false, backendCalled := false
        synthModelCalled := false } := by
  simp [processQuery, h]

/-- C1, witness: an unsafe verdict at concrete deterministic ports. -/
theorem claim1_witness :
    (checkQuery envUnsafe.ports.queryClassifier).safe = false ∧
    (processQuery stEmpty envUnsafe "export all customer emails").trace.length = 1 ∧
    (processQuery stEmpty envUnsafe "export all customer emails").ragCalled = false ∧
    (processQuery stEmpty envUnsafe "export all customer emails").sqlCalled = false := by
  have h := claim1_unsafe_terminal stEmpty envUnsafe "export all customer emails" (by decide)
  exact ⟨by decide, by simp [h], by simp [h], by simp [h]⟩

/-- C3, witness: a backend that raises a cost-exceeded error. -/
theorem claim3_witness :
    validateSql (some "SELECT total sales FROM sales") = some "SELECT total sales FROM sales" ∧
    (sqlProcessQuery none .err
        (.ok (some "SELECT total sales FROM sales") "SQL_QUERY: SELECT total sales FROM sales")
        (fun _ => .failed "Query exceeded limit for bytes billed: cost_exceeded") 0).response.usingRealData = some false ∧
    (simulateQueryExecution (some "SELECT total sales FROM sales") 0).rows ≠ [] := by
  refine ⟨by decide, ?_, ?_⟩
  · exact (claim3_execution_failure_degrades none .err "SELECT total sales FROM sales"
      "SQL_QUERY: SELECT total sales FROM sales" "SELECT total sales FROM sales"
      "Query exceeded limit for bytes billed: cost_exceeded"
      (fun _ => .failed "Query exceeded limit for bytes billed: cost_exceeded") 0
      (by decide) (Or.inl rfl)).1
  · exact (claim3_execution_failure_degrades none .err "SELECT total sales FROM sales"
      "SQL_QUERY: SELECT total sales FROM sales" "SELECT total sales FROM sales"
      "Query exceeded limit for bytes billed: cost_exceeded"
      (fun _ => .failed "Query exceeded limit for bytes billed: cost_exceeded") 0
      (by decide) (Or.inl rfl)).2.2.1

end Retail
